import Mathlib

/-!
Verification of the weather-dashboard component (src/src/App.tsx).

The testable core is a pseudo-random mock-data generator plus two pure
presentation transforms, wrapped in a single view-state holder.  We embed
the code shallowly:

* every `Math.random()` call in the source becomes an explicit rational
  draw `r` with `0 ≤ r < 1`; `Math.floor` is `Int.floor`, and JS
  `Math.round` (half toward +∞) is `⌊x + 1/2⌋`;
* the React state variables become the fields of a `ViewState` record,
  and each handler becomes a function on `ViewState`;
* a forecast entry's `date` is modelled as the millisecond timestamp
  `Date.now() + (i+1)*86400000` that the source passes to `new Date`
  before locale formatting;
* the `try`/`catch` in `fetchWeatherData` is modelled by a `fails` flag:
  a failure during data acquisition (the simulated delay / generation)
  happens before any state setter of the success path runs.
-/

/-- JS `Math.round`: rounds half toward positive infinity, `⌊x + 1/2⌋`. -/
def jsRound (x : ℚ) : ℤ := ⌊x + 1 / 2⌋

/-- The six condition labels, in source order
(`['Sunny', 'Cloudy', 'Rainy', 'Partly Cloudy', 'Thunderstorm', 'Snowy']`). -/
def conditions : List String :=
  ["Sunny", "Cloudy", "Rainy", "Partly Cloudy", "Thunderstorm", "Snowy"]

/-- Function `getRandomCondition`: indexes `conditions` with
`Math.floor(Math.random() * conditions.length)`; the draw `r` stands for
the `Math.random()` result. -/
def getRandomCondition (r : ℚ) : String :=
  conditions.getD (⌊r * 6⌋).toNat ""

/-- A single unit-interval random draw: `0 ≤ r < 1`, as `Math.random()`
guarantees. -/
def unitDraw (r : ℚ) : Prop := 0 ≤ r ∧ r < 1

instance (r : ℚ) : Decidable (unitDraw r) := by
  unfold unitDraw; infer_instance

/-- The six `Math.random()` calls made while building `mockWeather`,
in source order. -/
structure Draws where
  rTemp : ℚ
  rFeels : ℚ
  rCond : ℚ
  rHum : ℚ
  rWind : ℚ
  rIcon : ℚ

/-- All six draws lie in `[0,1)`. -/
def Draws.valid (d : Draws) : Prop :=
  unitDraw d.rTemp ∧ unitDraw d.rFeels ∧ unitDraw d.rCond ∧
    unitDraw d.rHum ∧ unitDraw d.rWind ∧ unitDraw d.rIcon

instance (d : Draws) : Decidable d.valid := by
  unfold Draws.valid; infer_instance

/-- Record `WeatherData` (the object built in `fetchWeatherData`). -/
structure WeatherData where
  city : String
  country : String
  temperature : ℤ
  feelsLike : ℤ
  condition : String
  humidity : ℤ
  windSpeed : ℤ
  icon : String
deriving DecidableEq

/-- The `mockWeather` object literal of `fetchWeatherData`. -/
def mockWeather (cityName : String) (d : Draws) : WeatherData :=
  { city := cityName
    country := "US"
    temperature := ⌊d.rTemp * 20⌋ + 15
    feelsLike := ⌊d.rFeels * 20⌋ + 13
    condition := getRandomCondition d.rCond
    humidity := ⌊d.rHum * 40⌋ + 40
    windSpeed := ⌊d.rWind * 20⌋ + 5
    icon := getRandomCondition d.rIcon }

/-- The four `Math.random()` calls made while building one forecast entry. -/
structure DayDraws where
  rMax : ℚ
  rMin : ℚ
  rCond : ℚ
  rIcon : ℚ

/-- All four draws lie in `[0,1)`. -/
def DayDraws.valid (d : DayDraws) : Prop :=
  unitDraw d.rMax ∧ unitDraw d.rMin ∧ unitDraw d.rCond ∧ unitDraw d.rIcon

instance (d : DayDraws) : Decidable d.valid := by
  unfold DayDraws.valid; infer_instance

/-- Record `ForecastDay`; `date` is the millisecond timestamp
`Date.now() + (i+1)*86400000` the source hands to `new Date` before
locale-formatting it. -/
structure ForecastDay where
  date : ℤ
  tempMax : ℤ
  tempMin : ℤ
  condition : String
  icon : String
deriving DecidableEq

/-- One entry of the `mockForecast` array: index `i` of the
`Array.from({length: 5}, (_, i) => ...)` call, built from `now`
(`Date.now()`) and that entry's draws. -/
def mockForecastEntry (now : ℤ) (i : ℕ) (d : DayDraws) : ForecastDay :=
  { date := now + (i + 1) * 86400000
    tempMax := ⌊d.rMax * 15⌋ + 20
    tempMin := ⌊d.rMin * 10⌋ + 10
    condition := getRandomCondition d.rCond
    icon := getRandomCondition d.rIcon }

/-- The `mockForecast` array: 5 entries, `ds i` being the draws consumed
by entry `i`. -/
def mockForecast (now : ℤ) (ds : ℕ → DayDraws) : List ForecastDay :=
  (List.range 5).map fun i => mockForecastEntry now i (ds i)

/-- A JS runtime value as far as `getWeatherIcon` can produce one: a
string, a member inherited from `Object.prototype` (a built-in function,
or the prototype object itself for `__proto__` — always truthy and never
a glyph string; tagged with the key it was read through), or
`undefined`. -/
inductive JsValue where
  | str : String → JsValue
  | inherited : String → JsValue
  | undefinedVal : JsValue
deriving DecidableEq

/-- The property keys a plain object literal inherits from
`Object.prototype`: reading any of them on `iconMap` yields a truthy
non-string value instead of `undefined`. -/
def objectPrototypeKeys : List String :=
  ["constructor", "hasOwnProperty", "isPrototypeOf",
    "propertyIsEnumerable", "toLocaleString", "toString", "valueOf",
    "__proto__", "__defineGetter__", "__defineSetter__",
    "__lookupGetter__", "__lookupSetter__"]

/-- The lookup `iconMap[condition]` of `getWeatherIcon`: the object
literal's six own entries shadow the prototype; any other key falls
through to the `Object.prototype` chain before resolving to
`undefined`. -/
def iconMap (condition : String) : JsValue :=
  if condition = "Sunny" then .str "☀️"
  else if condition = "Cloudy" then .str "☁️"
  else if condition = "Rainy" then .str "🌧️"
  else if condition = "Partly Cloudy" then .str "⛅"
  else if condition = "Thunderstorm" then .str "⛈️"
  else if condition = "Snowy" then .str "❄️"
  else if condition ∈ objectPrototypeKeys then .inherited condition
  else .undefinedVal

/-- JS truthiness of such a value: `undefined` and `""` are the falsy
cases that can arise here; inherited prototype members are truthy. -/
def JsValue.truthy : JsValue → Bool
  | .str s => s != ""
  | .inherited _ => true
  | .undefinedVal => false

/-- JS `v || d`: returns `v` when truthy, else the default. -/
def jsOrElse (v : JsValue) (d : JsValue) : JsValue :=
  if v.truthy then v else d

/-- Function `getWeatherIcon`: `iconMap[condition] || '🌤️'`. -/
def getWeatherIcon (condition : String) : JsValue :=
  jsOrElse (iconMap condition) (.str "🌤️")

/-- Function `celsiusToFahrenheit`: `Math.round((celsius * 9/5) + 32)`. -/
def celsiusToFahrenheit (celsius : ℚ) : ℤ :=
  jsRound (celsius * 9 / 5 + 32)

/-- Function `displayTemp`: the `isCelsius` flag it closes over is
passed explicitly. -/
def displayTemp (isCelsius : Bool) (celsius : ℚ) : ℤ :=
  if isCelsius then jsRound celsius else celsiusToFahrenheit celsius

/-- The React state variables of `App`, as one record. -/
structure ViewState where
  city : String
  searchInput : String
  currentWeather : Option WeatherData
  forecast : List ForecastDay
  isCelsius : Bool
  loading : Bool
  error : String
deriving DecidableEq

/-- The synchronous prefix of `fetchWeatherData`, run before the
simulated delay: `setLoading(true); setError('')`. -/
def fetchStart (s : ViewState) : ViewState :=
  { s with loading := true, error := "" }

/-- The rest of `fetchWeatherData`: on success the three setters of the
`try` block run; on a failure during data acquisition the `catch` sets
the error message; either way `finally` clears `loading`. -/
def fetchResolve (cityName : String) (d : Draws) (ds : ℕ → DayDraws)
    (now : ℤ) (fails : Bool) (s : ViewState) : ViewState :=
  if fails then
    { s with error := "Failed to fetch weather data. Please try again.",
             loading := false }
  else
    { s with currentWeather := some (mockWeather cityName d),
             forecast := mockForecast now ds,
             city := cityName,
             loading := false }

/-- Function `fetchWeatherData cityName`, end to end. -/
def fetchWeatherData (cityName : String) (d : Draws) (ds : ℕ → DayDraws)
    (now : ℤ) (fails : Bool) (s : ViewState) : ViewState :=
  fetchResolve cityName d ds now fails (fetchStart s)

/-- JS `String.prototype.trim`: strips leading and trailing whitespace.
Modelled structurally over the character list so that it evaluates in
the kernel. -/
def jsTrim (s : String) : String :=
  ⟨((s.data.dropWhile Char.isWhitespace).reverse.dropWhile
      Char.isWhitespace).reverse⟩

/-- Function `handleSearch`: if `searchInput.trim()` is truthy, invoke
`fetchWeatherData(searchInput.trim())` and clear the input; otherwise do
nothing.  The second component records the argument of the generator
call, `none` when no call occurs. -/
def handleSearch (d : Draws) (ds : ℕ → DayDraws) (now : ℤ) (fails : Bool)
    (s : ViewState) : ViewState × Option String :=
  if jsTrim s.searchInput ≠ "" then
    ({ fetchWeatherData (jsTrim s.searchInput) d ds now fails s with
        searchInput := "" },
      some (jsTrim s.searchInput))
  else (s, none)

/-- Function `toggleUnit`: `setIsCelsius(!isCelsius)`. -/
def toggleUnit (s : ViewState) : ViewState :=
  { s with isCelsius := !s.isCelsius }

/-! ## Helper lemmas -/

/-- A floor of a unit draw scaled by a positive constant lies in
`[0, z)`. -/
lemma floor_mul_bounds (r c : ℚ) (z : ℤ) (hz : (z : ℚ) = c) (hzpos : 0 < z)
    (h : unitDraw r) : 0 ≤ ⌊r * c⌋ ∧ ⌊r * c⌋ < z := by
  obtain ⟨h0, h1⟩ := h
  have hc : 0 < c := by rw [← hz]; exact_mod_cast hzpos
  refine ⟨Int.floor_nonneg.2 (mul_nonneg h0 hc.le), Int.floor_lt.2 ?_⟩
  rw [hz]
  exact (mul_lt_iff_lt_one_left hc).2 h1

/-- Any valid draw yields one of the six condition labels. -/
lemma getRandomCondition_mem (r : ℚ) (h : unitDraw r) :
    getRandomCondition r ∈ conditions := by
  obtain ⟨hge, hlt⟩ := floor_mul_bounds r 6 6 (by norm_num) (by norm_num) h
  unfold getRandomCondition
  set k := ⌊r * 6⌋ with hk
  interval_cases k <;> decide

/-- Rounding an integer is the identity. -/
lemma jsRound_intCast (c : ℤ) : jsRound (c : ℚ) = c := by
  unfold jsRound
  rw [add_comm, Int.floor_add_int]
  norm_num

/-! ## Claims -/

/-- C1: every generated current-weather reading (for every choice of the
random draws) satisfies `15 ≤ temperature < 35`, `13 ≤ feelsLike < 33`,
`40 ≤ humidity < 80`, `5 ≤ windSpeed < 25`, its condition is one of the
six labels, and its country is the fixed placeholder `"US"`. -/
theorem mockWeather_ranges (cityName : String) (d : Draws) (hd : d.valid) :
    15 ≤ (mockWeather cityName d).temperature ∧
    (mockWeather cityName d).temperature < 35 ∧
    13 ≤ (mockWeather cityName d).feelsLike ∧
    (mockWeather cityName d).feelsLike < 33 ∧
    40 ≤ (mockWeather cityName d).humidity ∧
    (mockWeather cityName d).humidity < 80 ∧
    5 ≤ (mockWeather cityName d).windSpeed ∧
    (mockWeather cityName d).windSpeed < 25 ∧
    (mockWeather cityName d).condition ∈ conditions ∧
    (mockWeather cityName d).country = "US" := by
  obtain ⟨ht, hf, hc, hh, hw, hi⟩ := hd
  obtain ⟨ht0, ht1⟩ := floor_mul_bounds d.rTemp 20 20 (by norm_num) (by norm_num) ht
  obtain ⟨hf0, hf1⟩ := floor_mul_bounds d.rFeels 20 20 (by norm_num) (by norm_num) hf
  obtain ⟨hh0, hh1⟩ := floor_mul_bounds d.rHum 40 40 (by norm_num) (by norm_num) hh
  obtain ⟨hw0, hw1⟩ := floor_mul_bounds d.rWind 20 20 (by norm_num) (by norm_num) hw
  refine ⟨?_, ?_, ?_, ?_, ?_, ?_, ?_, ?_,
    getRandomCondition_mem d.rCond hc, rfl⟩ <;>
    simp only [mockWeather] <;> linarith

/-- C1 witness: the all-zero draws are valid and give an in-range
reading. -/
theorem mockWeather_ranges_witness :
    15 ≤ (mockWeather "New York" ⟨0, 0, 0, 0, 0, 0⟩).temperature ∧
    (mockWeather "New York" ⟨0, 0, 0, 0, 0, 0⟩).country = "US" :=
  ⟨(mockWeather_ranges "New York" ⟨0, 0, 0, 0, 0, 0⟩ (by decide)).1,
    (mockWeather_ranges "New York" ⟨0, 0, 0, 0, 0, 0⟩ (by decide)).2.2.2.2.2.2.2.2.2⟩

/-- C2: every generated forecast has exactly 5 entries; each entry has
`20 ≤ tempMax < 35`, `10 ≤ tempMin < 20`, a condition among the six
labels, and entry `i` is dated exactly `i+1` days (in milliseconds)
after the reference time, so the dates are strictly increasing. -/
theorem mockForecast_spec (now : ℤ) (ds : ℕ → DayDraws)
    (h : ∀ i, i < 5 → (ds i).valid) :
    (mockForecast now ds).length = 5 ∧
    (∀ i, (hi : i < (mockForecast now ds).length) →
      20 ≤ ((mockForecast now ds).get ⟨i, hi⟩).tempMax ∧
      ((mockForecast now ds).get ⟨i, hi⟩).tempMax < 35 ∧
      10 ≤ ((mockForecast now ds).get ⟨i, hi⟩).tempMin ∧
      ((mockForecast now ds).get ⟨i, hi⟩).tempMin < 20 ∧
      ((mockForecast now ds).get ⟨i, hi⟩).condition ∈ conditions ∧
      ((mockForecast now ds).get ⟨i, hi⟩).date = now + (i + 1) * 86400000) ∧
    List.Chain' (fun a b => a.date < b.date) (mockForecast now ds) := by
  refine ⟨rfl, ?_, ?_⟩
  · intro i hi
    have hget : (mockForecast now ds).get ⟨i, hi⟩
        = mockForecastEntry now i (ds i) := by
      simp [mockForecast]
    have hi5 : i < 5 := by simpa [mockForecast] using hi
    obtain ⟨hM, hm, hc, hic⟩ := h i hi5
    obtain ⟨hM0, hM1⟩ :=
      floor_mul_bounds (ds i).rMax 15 15 (by norm_num) (by norm_num) hM
    obtain ⟨hm0, hm1⟩ :=
      floor_mul_bounds (ds i).rMin 10 10 (by norm_num) (by norm_num) hm
    rw [hget]
    refine ⟨?_, ?_, ?_, ?_, getRandomCondition_mem (ds i).rCond hc, rfl⟩ <;>
      simp only [mockForecastEntry] <;> linarith
  · show List.Chain' _
      ((List.range 5).map fun i => mockForecastEntry now i (ds i))
    simp [List.range_succ, mockForecastEntry]

/-- C2 witness: the all-zero draws for each day are valid, and the
first entry of the resulting forecast is in range and dated one day
after the reference time 0. -/
theorem mockForecast_spec_witness :
    (mockForecast 0 fun _ => ⟨0, 0, 0, 0⟩).length = 5 ∧
    20 ≤ ((mockForecast 0 fun _ => ⟨0, 0, 0, 0⟩).get
      ⟨0, by decide⟩).tempMax := by
  have hv : ∀ i, i < 5 → ((fun _ => (⟨0, 0, 0, 0⟩ : DayDraws)) i).valid := by
    intro i _
    show DayDraws.valid ⟨0, 0, 0, 0⟩
    decide
  exact ⟨(mockForecast_spec 0 (fun _ => ⟨0, 0, 0, 0⟩) hv).1,
    ((mockForecast_spec 0 (fun _ => ⟨0, 0, 0, 0⟩) hv).2.1 0 (by decide)).1⟩

/-- C3: displaying an integer `c` in Celsius mode is the identity
(`round(c) = c`); Fahrenheit mode returns `round(c * 9/5 + 32)`; in
particular 0 ↦ 32, 100 ↦ 212 and 20 ↦ 68. -/
theorem displayTemp_spec (c : ℤ) :
    displayTemp true (c : ℚ) = c ∧
    displayTemp false (c : ℚ) = jsRound ((c : ℚ) * 9 / 5 + 32) ∧
    displayTemp false 0 = 32 ∧
    displayTemp false 100 = 212 ∧
    displayTemp false 20 = 68 := by
  refine ⟨?_, rfl, ?_, ?_, ?_⟩
  · show jsRound (c : ℚ) = c
    exact jsRound_intCast c
  all_goals
    show jsRound _ = _
    unfold jsRound
    norm_num

/-- C4 counterexample: `"constructor"` lies outside the six-label
enumeration, yet `getWeatherIcon` returns the truthy inherited
`Object.prototype.constructor`, not the fallback glyph. -/
theorem getWeatherIcon_fallback_counterexample :
    "constructor" ∉ conditions ∧
    getWeatherIcon "constructor" ≠ JsValue.str "🌤️" := by
  decide

/-- C4 (amended): the icon lookup never fails or throws: each of the six
condition labels maps to a non-empty glyph; every string outside the
enumeration that is not an inherited `Object.prototype` property key
maps to the fallback glyph; an inherited key instead returns the truthy
inherited member. -/
theorem getWeatherIcon_total_amended :
    (∀ c, c ∈ conditions →
      ∃ g, getWeatherIcon c = JsValue.str g ∧ g ≠ "") ∧
    (∀ c, c ∉ conditions → c ∉ objectPrototypeKeys →
      getWeatherIcon c = JsValue.str "🌤️") ∧
    (∀ c, c ∈ objectPrototypeKeys →
      getWeatherIcon c = JsValue.inherited c) := by
  refine ⟨?_, ?_, ?_⟩
  · intro c hc
    fin_cases hc <;> exact ⟨_, rfl, by decide⟩
  · intro c hc hp
    simp only [conditions, List.mem_cons, List.not_mem_nil, or_false] at hc
    push_neg at hc
    obtain ⟨h1, h2, h3, h4, h5, h6⟩ := hc
    simp [getWeatherIcon, iconMap, jsOrElse, JsValue.truthy,
      h1, h2, h3, h4, h5, h6, hp]
  · intro c hp
    fin_cases hp <;> decide

/-- C4 witness: a known label gives a non-empty glyph, an ordinary
unknown string gives the fallback, and an inherited prototype key gives
the inherited member. -/
theorem getWeatherIcon_total_amended_witness :
    (∃ g, getWeatherIcon "Sunny" = JsValue.str g ∧ g ≠ "") ∧
    getWeatherIcon "Fog" = JsValue.str "🌤️" ∧
    getWeatherIcon "toString" = JsValue.inherited "toString" :=
  ⟨getWeatherIcon_total_amended.1 "Sunny" (by decide),
    getWeatherIcon_total_amended.2.1 "Fog" (by decide) (by decide),
    getWeatherIcon_total_amended.2.2 "toString" (by decide)⟩

/-- C5: when a fetch fails during data acquisition, the operation clears
the loading flag, sets exactly the one failure message, and leaves the
previously displayed weather reading and forecast unchanged. -/
theorem fetchWeatherData_failure (cityName : String) (d : Draws)
    (ds : ℕ → DayDraws) (now : ℤ) (s : ViewState) :
    (fetchWeatherData cityName d ds now true s).loading = false ∧
    (fetchWeatherData cityName d ds now true s).error =
      "Failed to fetch weather data. Please try again." ∧
    (fetchWeatherData cityName d ds now true s).currentWeather =
      s.currentWeather ∧
    (fetchWeatherData cityName d ds now true s).forecast = s.forecast :=
  ⟨rfl, rfl, rfl, rfl⟩

/-- C6: submitting the search form with input whose trim is empty is a
no-op: the generator is not invoked and the view state is unchanged. -/
theorem handleSearch_blank (d : Draws) (ds : ℕ → DayDraws) (now : ℤ)
    (fails : Bool) (s : ViewState) (h : jsTrim s.searchInput = "") :
    handleSearch d ds now fails s = (s, none) := by
  unfold handleSearch
  simp [h]

/-- C6 witness: a whitespace-only input leaves a concrete state
untouched. -/
theorem handleSearch_blank_witness :
    handleSearch ⟨0, 0, 0, 0, 0, 0⟩ (fun _ => ⟨0, 0, 0, 0⟩) 0 false
        ⟨"New York", "   ", none, [], true, false, ""⟩ =
      (⟨"New York", "   ", none, [], true, false, ""⟩, none) :=
  handleSearch_blank ⟨0, 0, 0, 0, 0, 0⟩ (fun _ => ⟨0, 0, 0, 0⟩) 0 false
    ⟨"New York", "   ", none, [], true, false, ""⟩ (by decide)

/-- C7: toggling the unit twice with no intervening search restores the
whole view state, so every displayed temperature (current, feels-like,
forecast highs and lows) returns to its original figure. -/
theorem toggleUnit_roundtrip (s : ViewState) (w : WeatherData)
    (_hw : s.currentWeather = some w) :
    toggleUnit (toggleUnit s) = s ∧
    displayTemp (toggleUnit (toggleUnit s)).isCelsius (w.temperature : ℚ)
      = displayTemp s.isCelsius (w.temperature : ℚ) ∧
    displayTemp (toggleUnit (toggleUnit s)).isCelsius (w.feelsLike : ℚ)
      = displayTemp s.isCelsius (w.feelsLike : ℚ) ∧
    ∀ day ∈ s.forecast,
      displayTemp (toggleUnit (toggleUnit s)).isCelsius (day.tempMax : ℚ)
          = displayTemp s.isCelsius (day.tempMax : ℚ) ∧
        displayTemp (toggleUnit (toggleUnit s)).isCelsius (day.tempMin : ℚ)
          = displayTemp s.isCelsius (day.tempMin : ℚ) := by
  have h0 : toggleUnit (toggleUnit s) = s := by
    simp [toggleUnit]
  rw [h0]
  exact ⟨rfl, rfl, rfl, fun day _ => ⟨rfl, rfl⟩⟩

/-- C7 witness: a concrete state holding a reading round-trips. -/
theorem toggleUnit_roundtrip_witness :
    toggleUnit (toggleUnit
        ⟨"New York", "", some (mockWeather "New York" ⟨0, 0, 0, 0, 0, 0⟩),
          [], true, false, ""⟩) =
      ⟨"New York", "", some (mockWeather "New York" ⟨0, 0, 0, 0, 0, 0⟩),
        [], true, false, ""⟩ :=
  (toggleUnit_roundtrip
    ⟨"New York", "", some (mockWeather "New York" ⟨0, 0, 0, 0, 0, 0⟩),
      [], true, false, ""⟩
    (mockWeather "New York" ⟨0, 0, 0, 0, 0, 0⟩) rfl).1

/-- C8: submitting the search form with `"  Paris  "` invokes the
generator with the trimmed `"Paris"`, and the resulting view shows city
`"Paris"` and a 5-entry forecast. -/
theorem handleSearch_paris (d : Draws) (ds : ℕ → DayDraws) (now : ℤ)
    (s : ViewState) (h : s.searchInput = "  Paris  ") :
    (handleSearch d ds now false s).2 = some "Paris" ∧
    (handleSearch d ds now false s).1.city = "Paris" ∧
    (handleSearch d ds now false s).1.forecast.length = 5 := by
  have ht : jsTrim "  Paris  " = "Paris" := by decide
  unfold handleSearch
  rw [h, ht]
  simp [fetchWeatherData, fetchResolve, fetchStart, mockForecast]

/-- C8 witness: a concrete state whose input is `"  Paris  "`. -/
theorem handleSearch_paris_witness :
    (handleSearch ⟨0, 0, 0, 0, 0, 0⟩ (fun _ => ⟨0, 0, 0, 0⟩) 0 false
      ⟨"New York", "  Paris  ", none, [], true, false, ""⟩).2
        = some "Paris" :=
  (handleSearch_paris ⟨0, 0, 0, 0, 0, 0⟩ (fun _ => ⟨0, 0, 0, 0⟩) 0
    ⟨"New York", "  Paris  ", none, [], true, false, ""⟩ rfl).1

/-- Draw 0 selects the first label. -/
lemma getRandomCondition_zero : getRandomCondition 0 = "Sunny" := by
  unfold getRandomCondition
  have h0 : (⌊(0 : ℚ) * 6⌋ : ℤ) = 0 := by norm_num
  rw [h0]
  decide

/-- Draw 1/2 selects the fourth label. -/
lemma getRandomCondition_half :
    getRandomCondition (1/2) = "Partly Cloudy" := by
  unfold getRandomCondition
  have h3 : (⌊(1/2 : ℚ) * 6⌋ : ℤ) = 3 := by norm_num
  rw [h3]
  decide

/-- C9: in every generated reading and every generated forecast entry
the condition and icon fields are each drawn from the six-label
enumeration by independent draws, so for some choice of draws the two
fields disagree — in a reading as well as in a forecast entry. -/
theorem condition_icon_independent :
    (∀ cityName d, Draws.valid d →
      (mockWeather cityName d).condition ∈ conditions ∧
      (mockWeather cityName d).icon ∈ conditions) ∧
    (∀ now ds, (∀ i, i < 5 → (ds i).valid) →
      ∀ e ∈ mockForecast now ds,
        e.condition ∈ conditions ∧ e.icon ∈ conditions) ∧
    (∃ cityName d, Draws.valid d ∧
      (mockWeather cityName d).condition ≠ (mockWeather cityName d).icon) ∧
    (∃ now ds, (∀ i, i < 5 → (ds i).valid) ∧
      ∃ e ∈ mockForecast now ds, e.condition ≠ e.icon) := by
  refine ⟨?_, ?_, ?_, ?_⟩
  · intro cityName d hd
    exact ⟨getRandomCondition_mem d.rCond hd.2.2.1,
      getRandomCondition_mem d.rIcon hd.2.2.2.2.2⟩
  · intro now ds hds e he
    simp only [mockForecast, List.mem_map, List.mem_range] at he
    obtain ⟨i, hi5, rfl⟩ := he
    obtain ⟨_, _, hc, hic⟩ := hds i hi5
    exact ⟨getRandomCondition_mem _ hc, getRandomCondition_mem _ hic⟩
  · refine ⟨"New York", ⟨0, 0, 0, 0, 0, 1/2⟩,
      by norm_num [Draws.valid, unitDraw], ?_⟩
    show getRandomCondition 0 ≠ getRandomCondition (1/2)
    rw [getRandomCondition_zero, getRandomCondition_half]
    decide
  · refine ⟨0, fun _ => ⟨0, 0, 0, 1/2⟩, ?_,
      mockForecastEntry 0 0 ⟨0, 0, 0, 1/2⟩, ?_, ?_⟩
    · intro i _
      show DayDraws.valid ⟨0, 0, 0, 1/2⟩
      norm_num [DayDraws.valid, unitDraw]
    · exact List.mem_map.2 ⟨0, List.mem_range.2 (by norm_num), rfl⟩
    · show getRandomCondition 0 ≠ getRandomCondition (1/2)
      rw [getRandomCondition_zero, getRandomCondition_half]
      decide

/-- C9 witness: the two universal conjuncts applied at all-zero draws. -/
theorem condition_icon_independent_witness :
    (mockWeather "New York" ⟨0, 0, 0, 0, 0, 0⟩).condition ∈ conditions ∧
    ∀ e ∈ mockForecast 0 (fun _ => ⟨0, 0, 0, 0⟩),
      e.condition ∈ conditions ∧ e.icon ∈ conditions := by
  have hv : ∀ i, i < 5 → ((fun _ => (⟨0, 0, 0, 0⟩ : DayDraws)) i).valid := by
    intro i _
    show DayDraws.valid ⟨0, 0, 0, 0⟩
    decide
  exact ⟨(condition_icon_independent.1 "New York" ⟨0, 0, 0, 0, 0, 0⟩
      (by decide)).1,
    condition_icon_independent.2.1 0 (fun _ => ⟨0, 0, 0, 0⟩) hv⟩

/-- C10: every fetch clears the error message in its synchronous prefix,
a successful fetch ends with an empty error message, and a successful
new search removes a previously displayed error message. -/
theorem fetch_clears_error (cityName : String) (d : Draws)
    (ds : ℕ → DayDraws) (now : ℤ) (s : ViewState) :
    (fetchStart s).error = "" ∧
    (fetchWeatherData cityName d ds now false s).error = "" ∧
    (jsTrim s.searchInput ≠ "" →
      (handleSearch d ds now false s).1.error = "") := by
  refine ⟨rfl, rfl, fun h => ?_⟩
  unfold handleSearch
  simp [h, fetchWeatherData, fetchResolve, fetchStart]

/-- C10 witness: a state carrying an old error message loses it on a new
successful search. -/
theorem fetch_clears_error_witness :
    (handleSearch ⟨0, 0, 0, 0, 0, 0⟩ (fun _ => ⟨0, 0, 0, 0⟩) 0 false
      ⟨"New York", "Paris", none, [], true, false, "old error"⟩).1.error
        = "" :=
  (fetch_clears_error "Paris" ⟨0, 0, 0, 0, 0, 0⟩ (fun _ => ⟨0, 0, 0, 0⟩) 0
      ⟨"New York", "Paris", none, [], true, false, "old error"⟩).2.2
    (by decide)
